import Mathlib

set_option autoImplicit false

/-- JS values that can appear as elements of the collection Set or inside a
parsed JSON array.  `collect` only ever inserts strings, but a corrupted
stored document can populate the Set with numbers, booleans or null. -/
inductive Prim where
  | pstr (s : String)
  | pnum (n : Int)
  | pbool (b : Bool)
  | pnull
  deriving DecidableEq

/-- The content of the localStorage cell at the collection key, described by
what `JSON.parse` would make of it: absent (`getItem` returns null or the
empty string, both falsy), unparsable text, or a parsed JSON value (an array
of primitives, a string, a number, a boolean, null, or an object). -/
inductive StoredDoc where
  | absent
  | unparsable (raw : String)
  | jarr (xs : List Prim)
  | jstr (s : String)
  | jnum (n : Int)
  | jbool (b : Bool)
  | jnull
  | jobj
  deriving DecidableEq

/-- `Set.prototype.add`: append the value unless it is already a member
(JS Sets are insertion ordered and duplicate free). -/
def setAdd (c : List Prim) (v : Prim) : List Prim :=
  if v ∈ c then c else c ++ [v]

/-- `new Set(iterableElements)`: insert the elements one by one. -/
def setFromList (xs : List Prim) : List Prim :=
  xs.foldl setAdd []

/-- The state owned by the Collection module: the in-memory `collection` Set
together with the localStorage cell it persists to. -/
structure CollectionState where
  collection : List Prim
  storage : StoredDoc
  deriving DecidableEq

/-- The body of the `try` block of `loadFromStorage` (collection.js lines
57-62): read the cell, parse it, build `new Set(parsed)`.  `JSON.parse`
throws on unparsable text; the `Set` constructor throws a TypeError on a
non-iterable argument, accepts null as empty, and iterates a string by
characters. -/
def loadTry : StoredDoc → Except String (List Prim)
  | StoredDoc.absent => Except.ok []
  | StoredDoc.unparsable _ => Except.error ("SyntaxError: unexpected token in JSON")
  | StoredDoc.jarr xs => Except.ok (setFromList xs)
  | StoredDoc.jstr s => Except.ok (setFromList (s.data.map (fun c => Prim.pstr (c.toString))))
  | StoredDoc.jnum _ => Except.error ("TypeError: number is not iterable")
  | StoredDoc.jbool _ => Except.error ("TypeError: boolean is not iterable")
  | StoredDoc.jnull => Except.ok []
  | StoredDoc.jobj => Except.error ("TypeError: object is not iterable")

/-- `loadFromStorage` (collection.js lines 56-67): the catch clause logs the
error and resets the collection to `new Set()`. -/
def loadFromStorage (doc : StoredDoc) : List Prim :=
  match loadTry doc with
  | Except.ok c => c
  | Except.error _ => []

/-- `saveToStorage` (collection.js lines 72-78): `setItem` with the
serialized spread of the Set; a throwing write is caught and logged, leaving
the cell untouched and the caller unaffected.  `writeFails` selects whether
the underlying `setItem` throws. -/
def saveToStorage (writeFails : Bool) (s : CollectionState) : CollectionState :=
  if writeFails then s else { s with storage := StoredDoc.jarr s.collection }

/-- Observable outcome of one `collect` call: the returned boolean, the
resulting module state, whether `setItem` was invoked, and whether the
celebration side effect fired. -/
structure CollectResult where
  ret : Bool
  state : CollectionState
  wrote : Bool
  celebrated : Bool
  deriving DecidableEq

/-- `collect` (collection.js lines 85-96). -/
def collect (writeFails : Bool) (animalId : String) (s : CollectionState) : CollectResult :=
  if Prim.pstr animalId ∈ s.collection then
    { ret := false, state := s, wrote := false, celebrated := false }
  else
    let s1 : CollectionState := { s with collection := setAdd s.collection (Prim.pstr animalId) }
    { ret := true, state := saveToStorage writeFails s1, wrote := true, celebrated := true }

/-- A sequence of `n` successive `collect` calls with the same id, returning
the list of boolean results and the final state. -/
def collectSeq (writeFails : Bool) (animalId : String) : CollectionState → Nat → List Bool × CollectionState
  | s, 0 => ([], s)
  | s, n + 1 =>
    let r := collect writeFails animalId s
    let rest := collectSeq writeFails animalId r.state n
    (r.ret :: rest.1, rest.2)

/-- `isCollected` (collection.js lines 103-105). -/
def isCollected (animalId : String) (s : CollectionState) : Bool :=
  decide (Prim.pstr animalId ∈ s.collection)

/-- `reset` (collection.js lines 253-257): clear the Set, then persist. -/
def reset (writeFails : Bool) (s : CollectionState) : CollectionState :=
  saveToStorage writeFails { s with collection := [] }

/-- A JS number as produced by the progress computation: NaN, positive
infinity, or a finite value idealized as a rational. -/
inductive JsNum where
  | nan
  | inf
  | fin (q : ℚ)
  deriving DecidableEq

/-- Multiplication by 100 on JS numbers (NaN and infinity absorb). -/
def jsTimes100 : JsNum → JsNum
  | JsNum.nan => JsNum.nan
  | JsNum.inf => JsNum.inf
  | JsNum.fin q => JsNum.fin (q * 100)

/-- `Math.round`: half-up rounding on finite values, identity on NaN and
infinity. -/
def jsMathRound : JsNum → JsNum
  | JsNum.nan => JsNum.nan
  | JsNum.inf => JsNum.inf
  | JsNum.fin q => JsNum.fin ((⌊q + 1 / 2⌋ : ℤ) : ℚ)

/-- The object returned by `getProgress`. -/
structure ProgressSummary where
  collected : Nat
  total : Nat
  percentage : JsNum
  deriving DecidableEq

/-- `getProgress` (collection.js lines 120-127): `total` defaults to 20 when
the argument is omitted; the percentage is `Math.round((count / total) * 100)`
where `count / total` is JS division, so a zero total yields NaN (0/0) or
infinity (positive/0). -/
def getProgress (s : CollectionState) (totalArg : Option Nat) : ProgressSummary :=
  let total := totalArg.getD 20
  let count := s.collection.length
  let frac : JsNum :=
    if total = 0 then (if count = 0 then JsNum.nan else JsNum.inf)
    else JsNum.fin ((count : ℚ) / (total : ℚ))
  { collected := count, total := total, percentage := jsMathRound (jsTimes100 frac) }

/-- Whether a JS number compares strictly greater than 100. -/
def exceedsHundred : JsNum → Bool
  | JsNum.nan => false
  | JsNum.inf => true
  | JsNum.fin q => decide (100 < q)

/-- The optional pronunciation-practice descriptor of an animal record. -/
structure SpeechPractice where
  hasGKSound : Bool
  phonetic : String
  targetSound : String
  tip : String
  deriving DecidableEq

/-- The numeric stat triple of an animal record. -/
structure AnimalStats where
  size : Nat
  speed : Nat
  dangerLevel : Nat
  deriving DecidableEq

/-- Percentage-based map position of an animal record. -/
structure MapPosition where
  x : Int
  y : Int
  deriving DecidableEq

/-- An animal record as loaded from the catalog. -/
structure Animal where
  id : String
  name : String
  category : String
  habitat : String
  rarity : String
  image : String
  position : MapPosition
  facts : List String
  stats : AnimalStats
  speechPractice : Option SpeechPractice
  deriving DecidableEq

/-- A child node of a gallery item: an image element, a plain div, or a text
span. -/
inductive GNode where
  | img (cls : String) (src : String) (alt : String)
  | div (cls : String)
  | span (cls : String) (text : String)
  deriving DecidableEq

/-- The DOM element produced by `createGalleryItem`, abstracted to its class
list, its children in order, and whether a click handler opening the card was
attached. -/
structure GalleryItem where
  classes : List String
  children : List GNode
  clickableCard : Bool
  deriving DecidableEq

/-- `classList.toggle(c, on)`: append the class when `on` (unless present),
remove every occurrence otherwise. -/
def classToggle (cls : List String) (c : String) (enable : Bool) : List String :=
  if enable then (if c ∈ cls then cls else cls ++ [c]) else cls.filter (fun x => x ≠ c)

/-- `createGalleryItem` (collection.js lines 197-231). -/
def createGalleryItem (animal : Animal) (coll : List Prim) : GalleryItem :=
  let isOwned : Bool := decide (Prim.pstr animal.id ∈ coll)
  let cls1 := classToggle ["collection-item", "collection-item--" ++ animal.rarity]
    ("collection-item--collected") isOwned
  let cls2 := classToggle cls1 ("collection-item--undiscovered") (!isOwned)
  let topChild :=
    if isOwned then GNode.img ("collection-item__image") animal.image animal.name
    else GNode.div ("collection-item__silhouette")
  let nameNode := GNode.span ("collection-item__name") (if isOwned then animal.name else "???")
  { classes := cls2, children := [topChild, nameNode], clickableCard := isOwned }

/-- The apostrophe character, kept out of string literals. -/
def apos : String := String.singleton (Char.ofNat 39)

/-- The category framing sentence of `buildSpeechText` (speech.js lines
100-103). -/
def categoryFraming (category : String) : String :=
  if category = "dinosaur" then "is an Australian dinosaur"
  else "is one of Australia" ++ apos ++ "s deadly creatures"

/-- The enumerated fact sentences of `buildSpeechText` (speech.js lines
108-110). -/
def enumFactParts (facts : List String) : List String :=
  facts.enum.map (fun p => "Fact " ++ toString (p.1 + 1) ++ ": " ++ p.2)

/-- First practice sentence of `buildSpeechText` (speech.js line 115). -/
def practiceLine1 (name : String) : String :=
  "Now let" ++ apos ++ "s practice saying " ++ name ++ "!"

/-- Second practice sentence of `buildSpeechText` (speech.js line 116). -/
def practiceLine2 (target : String) : String :=
  "Listen for the " ++ target.toUpper ++ " sound."

/-- `Array.prototype.join` with separator dot-space, as used on line 119 of
speech.js. -/
def joinParts : List String → String
  | [] => ""
  | [x] => x
  | x :: y :: rest => x ++ ". " ++ joinParts (y :: rest)

/-- `buildSpeechText` (speech.js lines 93-120), transliterating the
successive pushes into the `parts` array. -/
def buildSpeechText (animal : Animal) : String :=
  let parts1 := [animal.name]
  let parts2 := parts1 ++ [categoryFraming animal.category]
  let parts3 :=
    if 0 < animal.facts.length then parts2 ++ ("Here are some fun facts:" :: enumFactParts animal.facts)
    else parts2
  let parts4 :=
    match animal.speechPractice with
    | some sp =>
      if sp.hasGKSound then parts3 ++ [practiceLine1 animal.name, practiceLine2 sp.targetSound]
      else parts3
    | none => parts3
  joinParts parts4

/-- Whether the pronunciation-practice flag applies to a record. -/
def hasPracticeFlag (animal : Animal) : Bool :=
  match animal.speechPractice with
  | some sp => sp.hasGKSound
  | none => false

/-- The target sound of a record, empty when absent. -/
def practiceTarget (animal : Animal) : String :=
  match animal.speechPractice with
  | some sp => sp.targetSound
  | none => ""

/-- Spec-side description of the facts section: empty for no facts, otherwise
the introduction followed by the enumerated facts. -/
def factsLines (facts : List String) : List String :=
  match facts with
  | [] => []
  | _ :: _ => "Here are some fun facts:" :: enumFactParts facts

/-- Spec-side description of the narration body: name, category framing and
the facts section joined into sentences. -/
def narrationBody (animal : Animal) : String :=
  joinParts ([animal.name, categoryFraming animal.category] ++ factsLines animal.facts)

/-- Spec-side description of the whole narration: the body, followed by the
trailing practice prompt naming the target sound exactly when the flag
applies. -/
def narrationSpecText (animal : Animal) : String :=
  if hasPracticeFlag animal then
    narrationBody animal ++ ". " ++ practiceLine1 animal.name ++ ". " ++ practiceLine2 (practiceTarget animal)
  else narrationBody animal

/-- The error thrown inside the `try` block of `loadAnimals` (map.js lines
217-225): a non-ok HTTP status, a network failure of `fetch`, or a rejection
of `response.json()` on a malformed body. -/
inductive LoadError where
  | httpStatus (status : Nat)
  | network
  | malformed
  deriving DecidableEq

/-- The behavior of the external source on one fetch attempt. -/
inductive FetchOutcome where
  | ok (xs : List Animal)
  | httpError (status : Nat)
  | networkError
  | malformedBody
  deriving DecidableEq

/-- The module state of AnimalData: the cached `animals` array and the
`loaded` flag. -/
structure LoadState where
  animals : List Animal
  loaded : Bool
  deriving DecidableEq

/-- Observable outcome of one `loadAnimals` call: the returned array, the
resulting module state, and whether a fetch was performed. -/
structure LoadCall where
  result : List Animal
  state : LoadState
  fetched : Bool
  deriving DecidableEq

/-- The `try` block of `loadAnimals`: fetch, check `response.ok`, parse. -/
def fetchTry : FetchOutcome → Except LoadError (List Animal)
  | FetchOutcome.ok xs => Except.ok xs
  | FetchOutcome.httpError s => Except.error (LoadError.httpStatus s)
  | FetchOutcome.networkError => Except.error (LoadError.network)
  | FetchOutcome.malformedBody => Except.error (LoadError.malformed)

/-- Whether the fetch attempt raises inside the `try` block. -/
def fetchFails (f : FetchOutcome) : Bool :=
  match fetchTry f with
  | Except.ok _ => false
  | Except.error _ => true

/-- `AnimalData.loadAnimals` (map.js lines 214-231): return the cache when
`loaded`; otherwise run the fetch, caching and returning the data on success,
and catching any error to return an empty array, leaving the state
untouched. -/
def loadAnimals (f : FetchOutcome) (st : LoadState) : LoadCall :=
  if st.loaded then { result := st.animals, state := st, fetched := false }
  else
    match fetchTry f with
    | Except.ok xs => { result := xs, state := { animals := xs, loaded := true }, fetched := true }
    | Except.error _ => { result := [], state := st, fetched := true }

/-- The message shown by `App.init` when no animal data is available. -/
def couldNotLoadMsg : String :=
  "Could not load animal data. Please try refreshing the page."

/-- The observable outcome of application startup: an error message shown in
place of the main view, or a ready application with the loaded catalog. -/
inductive AppOutcome where
  | showError (msg : String)
  | ready (animals : List Animal)
  deriving DecidableEq

/-- `App.init` (app.js lines 11-46) restricted to its data path: await
`loadAnimals` from the initial module state; an empty result shows the
degraded-state message and returns, a non-empty result proceeds to marker
placement. -/
def appInit (f : FetchOutcome) : AppOutcome :=
  let call := loadAnimals f { animals := [], loaded := false }
  if call.result.length = 0 then AppOutcome.showError couldNotLoadMsg
  else AppOutcome.ready call.result

/-- A sample animal record with two facts and no pronunciation practice. -/
def wombat : Animal :=
  { id := "wombat", name := "Wombat", category := "deadly", habitat := "land",
    rarity := "common", image := "images/wombat.png", position := { x := 30, y := 60 },
    facts := ["Fast", "Loud"], stats := { size := 5, speed := 5, dangerLevel := 5 },
    speechPractice := none }

/-- A collection state holding 202 distinct members (reachable, for example,
by restoring a stored array of 202 distinct numbers). -/
def bigState : CollectionState :=
  { collection := (List.range 202).map (fun n => Prim.pnum (Int.ofNat n)),
    storage := StoredDoc.absent }

/-- A collection state holding one collected id. -/
def oneState : CollectionState :=
  { collection := [Prim.pstr ("a")], storage := StoredDoc.absent }

theorem setAdd_of_not_mem {c : List Prim} {v : Prim} (h : v ∉ c) : setAdd c v = c ++ [v] := by
  simp [setAdd, h]

theorem setAdd_nodup {c : List Prim} {v : Prim} (h : c.Nodup) : (setAdd c v).Nodup := by
  by_cases hv : v ∈ c
  · simpa [setAdd, hv] using h
  · simp only [setAdd, hv, if_false]
    simp [List.nodup_append, h, hv]

theorem foldl_setAdd_of_nodup :
    ∀ (xs acc : List Prim), (acc ++ xs).Nodup → xs.foldl setAdd acc = acc ++ xs := by
  intro xs
  induction xs with
  | nil => intro acc _; simp
  | cons x t ih =>
    intro acc h
    have hx : x ∉ acc := by
      have hd := (List.nodup_append.mp h).2.2
      intro hmem
      exact hd hmem (List.mem_cons_self x t)
    have h' : ((acc ++ [x]) ++ t).Nodup := by
      simpa [List.append_assoc] using h
    rw [List.foldl_cons, setAdd_of_not_mem hx, ih (acc ++ [x]) h']
    simp

theorem foldl_setAdd_nodup :
    ∀ (xs acc : List Prim), acc.Nodup → (xs.foldl setAdd acc).Nodup := by
  intro xs
  induction xs with
  | nil => intro acc h; simpa using h
  | cons x t ih =>
    intro acc h
    rw [List.foldl_cons]
    exact ih (setAdd acc x) (setAdd_nodup h)

theorem setFromList_of_nodup {xs : List Prim} (h : xs.Nodup) : setFromList xs = xs := by
  simpa [setFromList] using foldl_setAdd_of_nodup xs [] (by simpa using h)

theorem loadFromStorage_nodup (doc : StoredDoc) : (loadFromStorage doc).Nodup := by
  cases doc <;>
    simp [loadFromStorage, loadTry, setFromList] <;>
    exact foldl_setAdd_nodup _ [] (by simp)

theorem collect_of_mem {writeFails : Bool} {animalId : String} {s : CollectionState}
    (h : Prim.pstr animalId ∈ s.collection) :
    collect writeFails animalId s =
      { ret := false, state := s, wrote := false, celebrated := false } := by
  simp [collect, h]

theorem collectSeq_of_mem {writeFails : Bool} {animalId : String} :
    ∀ (n : Nat) (s : CollectionState), Prim.pstr animalId ∈ s.collection →
      collectSeq writeFails animalId s n = (List.replicate n false, s) := by
  intro n
  induction n with
  | zero => intro s _; simp [collectSeq]
  | succ m ih =>
    intro s h
    simp [collectSeq, collect_of_mem h, ih s h, List.replicate_succ]

theorem saveToStorage_collection (writeFails : Bool) (s : CollectionState) :
    (saveToStorage writeFails s).collection = s.collection := by
  unfold saveToStorage
  split <;> rfl

/-- Claim C1: `collect(id)` returns true, appends the id to the collected set
and writes to storage exactly when the id was not already a member; when it
was a member the call returns false, changes nothing and performs no write;
and across a sequence of repeated calls with the same id only the first call
can return true, the size being unchanged by every later call. -/
theorem collect_exactly_once (animalId : String) (s : CollectionState) (n : Nat) :
    (collect false animalId s).ret = !(decide (Prim.pstr animalId ∈ s.collection))
    ∧ (collect false animalId s).wrote = !(decide (Prim.pstr animalId ∈ s.collection))
    ∧ (collect false animalId s).state.collection =
        (if Prim.pstr animalId ∈ s.collection then s.collection
         else s.collection ++ [Prim.pstr animalId])
    ∧ (collect false animalId s).state.storage =
        (if Prim.pstr animalId ∈ s.collection then s.storage
         else StoredDoc.jarr (s.collection ++ [Prim.pstr animalId]))
    ∧ (collectSeq false animalId s (n + 1)).1 =
        (!(decide (Prim.pstr animalId ∈ s.collection))) :: List.replicate n false
    ∧ ((collectSeq false animalId s (n + 1)).2).collection.length =
        ((collect false animalId s).state).collection.length := by
  by_cases hm : Prim.pstr animalId ∈ s.collection
  · refine ⟨?_, ?_, ?_, ?_, ?_, ?_⟩ <;>
      simp [collect_of_mem hm, hm, collectSeq, collectSeq_of_mem n s hm]
  · have hmem : Prim.pstr animalId ∈ (collect false animalId s).state.collection := by
      simp [collect, hm, saveToStorage_collection, setAdd_of_not_mem hm]
    refine ⟨?_, ?_, ?_, ?_, ?_, ?_⟩
    · simp [collect, hm]
    · simp [collect, hm]
    · simp [collect, hm, saveToStorage_collection, setAdd_of_not_mem hm]
    · simp [collect, hm, saveToStorage, setAdd_of_not_mem hm]
    · simp only [collectSeq]
      rw [collectSeq_of_mem n _ hmem]
      simp [collect, hm]
    · simp only [collectSeq]
      rw [collectSeq_of_mem n _ hmem]

/-- Claim C9: when the synchronous storage write fails, the failure is
swallowed and the in-memory mutation survives: after a failed write,
`collect` has still appended the new id (and left a present id alone), and
`reset` has still cleared the set, while the storage cell is unchanged in
every case. -/
theorem write_failure_no_rollback (animalId : String) (s : CollectionState) :
    (collect true animalId s).state.collection =
      (if Prim.pstr animalId ∈ s.collection then s.collection
       else s.collection ++ [Prim.pstr animalId])
    ∧ (collect true animalId s).state.storage = s.storage
    ∧ (collect true animalId s).ret = !(decide (Prim.pstr animalId ∈ s.collection))
    ∧ (reset true s).collection = []
    ∧ (reset true s).storage = s.storage := by
  by_cases hm : Prim.pstr animalId ∈ s.collection
  · refine ⟨?_, ?_, ?_, ?_, ?_⟩ <;> simp [collect_of_mem hm, hm, reset, saveToStorage]
  · refine ⟨?_, ?_, ?_, ?_, ?_⟩ <;>
      simp [collect, hm, reset, saveToStorage, setAdd_of_not_mem hm]

/-- Claim C3 (amended): initializing never fails the caller; the restored set
is empty whenever the stored value is absent, unparsable, or parses to a
non-iterable value (number, boolean, null or plain object), and the restored
set is always duplicate free. -/
theorem loadFromStorage_degrades_empty :
    loadFromStorage StoredDoc.absent = []
    ∧ (∀ raw, loadFromStorage (StoredDoc.unparsable raw) = [])
    ∧ (∀ n, loadFromStorage (StoredDoc.jnum n) = [])
    ∧ (∀ b, loadFromStorage (StoredDoc.jbool b) = [])
    ∧ loadFromStorage StoredDoc.jnull = []
    ∧ loadFromStorage StoredDoc.jobj = []
    ∧ (∀ doc, (loadFromStorage doc).Nodup) := by
  exact ⟨rfl, fun _ => rfl, fun _ => rfl, fun _ => rfl, rfl, rfl, loadFromStorage_nodup⟩

/-- Claim C3 is refuted at the stored value `[1,2]`: that value is corrupted
(it is not an array of id strings) yet it parses, the Set constructor accepts
it, and the resulting in-memory collected set is non-empty. -/
theorem loadFromStorage_corrupted_counterexample :
    loadFromStorage (StoredDoc.jarr [Prim.pnum 1, Prim.pnum 2]) = [Prim.pnum 1, Prim.pnum 2]
    ∧ loadFromStorage (StoredDoc.jarr [Prim.pnum 1, Prim.pnum 2]) ≠ ([] : List Prim) := by
  exact ⟨by decide, by decide⟩

/-- Claim C4: persisting a duplicate-free set of string ids and restoring
from the stored value yields exactly the same ids. -/
theorem storage_roundtrip (ids : List String) (h : ids.Nodup) :
    loadFromStorage
        ((saveToStorage false
            { collection := ids.map Prim.pstr, storage := StoredDoc.absent }).storage)
      = ids.map Prim.pstr := by
  have hinj : Function.Injective Prim.pstr := fun a b hab => by injection hab
  have hnd : (ids.map Prim.pstr).Nodup := h.map hinj
  simp [saveToStorage, loadFromStorage, loadTry, setFromList_of_nodup hnd]

/-- Witness for the round-trip theorem at a concrete two-id set. -/
theorem storage_roundtrip_witness :
    (["kangaroo", "koala"] : List String).Nodup
    ∧ loadFromStorage
        ((saveToStorage false
            { collection := (["kangaroo", "koala"] : List String).map Prim.pstr,
              storage := StoredDoc.absent }).storage)
      = (["kangaroo", "koala"] : List String).map Prim.pstr := by
  exact ⟨by decide, storage_roundtrip ["kangaroo", "koala"] (by decide)⟩

/-- Claim C10: the division in `getProgress` is unguarded, so a zero total
produces a NaN percentage on an empty set and an infinite percentage
otherwise; and an omitted argument silently defaults the total to 20. -/
theorem getProgress_zero_total (s : CollectionState) :
    (getProgress s (some 0)).percentage =
      (if s.collection.length = 0 then JsNum.nan else JsNum.inf)
    ∧ (getProgress s (some 0)).collected = s.collection.length
    ∧ (getProgress s (some 0)).total = 0
    ∧ getProgress s none = getProgress s (some 20)
    ∧ (getProgress s none).total = 20 := by
  refine ⟨?_, rfl, rfl, rfl, rfl⟩
  by_cases h : s.collection.length = 0 <;> simp [getProgress, h, jsTimes100, jsMathRound]

/-- Claim C2 (amended): for a positive caller-supplied total the summary
carries the set size, the supplied total, and percentage equal to the
half-up rounding of `100 * collected / total`; the percentage exceeds 100
exactly when `201 * total ≤ 200 * collected`, so a collected count merely
exceeding the total need not push the rounded percentage above 100. -/
theorem getProgress_formula (s : CollectionState) (total : Nat) (h : 0 < total) :
    getProgress s (some total) =
      { collected := s.collection.length, total := total,
        percentage :=
          JsNum.fin ((⌊(100 * (s.collection.length : ℚ)) / (total : ℚ) + 1 / 2⌋ : ℤ) : ℚ) }
    ∧ exceedsHundred (getProgress s (some total)).percentage =
        decide (201 * total ≤ 200 * s.collection.length) := by
  have ht0 : total ≠ 0 := h.ne'
  have htQ : (0 : ℚ) < (total : ℚ) := by exact_mod_cast h
  have harg : ((s.collection.length : ℚ) / (total : ℚ)) * 100
      = (100 * (s.collection.length : ℚ)) / (total : ℚ) := by ring
  have hmain : getProgress s (some total) =
      { collected := s.collection.length, total := total,
        percentage :=
          JsNum.fin ((⌊(100 * (s.collection.length : ℚ)) / (total : ℚ) + 1 / 2⌋ : ℤ) : ℚ) } := by
    simp [getProgress, ht0, jsTimes100, jsMathRound, harg]
  refine ⟨hmain, ?_⟩
  have keyQ : ((101 : ℚ) ≤ (100 * (s.collection.length : ℚ)) / (total : ℚ) + 1 / 2)
      ↔ ((201 : ℚ) * (total : ℚ) ≤ 200 * (s.collection.length : ℚ)) := by
    constructor
    · intro hx
      have h1 : (201 : ℚ) / 2 ≤ (100 * (s.collection.length : ℚ)) / (total : ℚ) := by linarith
      have h2 : (201 : ℚ) / 2 * (total : ℚ) ≤ 100 * (s.collection.length : ℚ) :=
        (le_div_iff₀ htQ).mp h1
      linarith
    · intro hn
      have h2 : (201 : ℚ) / 2 * (total : ℚ) ≤ 100 * (s.collection.length : ℚ) := by linarith
      have h1 : (201 : ℚ) / 2 ≤ (100 * (s.collection.length : ℚ)) / (total : ℚ) :=
        (le_div_iff₀ htQ).mpr h2
      linarith
  have hiff : (100 : ℚ) <
        ((⌊(100 * (s.collection.length : ℚ)) / (total : ℚ) + 1 / 2⌋ : ℤ) : ℚ)
      ↔ 201 * total ≤ 200 * s.collection.length := by
    rw [show ((100 : ℚ)) = (((100 : ℤ) : ℚ)) from by norm_num, Int.cast_lt,
      Int.lt_iff_add_one_le, show ((100 : ℤ) + 1) = 101 from by norm_num, Int.le_floor]
    push_cast
    rw [keyQ]
    constructor
    · intro hq; exact_mod_cast hq
    · intro hq; exact_mod_cast hq
  rw [hmain]
  simp only [exceedsHundred]
  exact decide_eq_decide.mpr hiff

/-- Witness for the progress formula theorem at a one-element set and total
one. -/
theorem getProgress_formula_witness :
    0 < 1
    ∧ (getProgress oneState (some 1) =
        { collected := oneState.collection.length, total := 1,
          percentage :=
            JsNum.fin ((⌊(100 * (oneState.collection.length : ℚ)) / ((1 : ℕ) : ℚ) + 1 / 2⌋ : ℤ) : ℚ) }
      ∧ exceedsHundred (getProgress oneState (some 1)).percentage =
          decide (201 * 1 ≤ 200 * oneState.collection.length)) := by
  exact ⟨by decide, getProgress_formula oneState 1 (by decide)⟩

/-- Claim C2 is refuted at a state with 202 collected members and a supplied
total of 201: the collected count exceeds the total, yet the rounded
percentage is exactly 100 and does not exceed 100. -/
theorem getProgress_over_total_counterexample :
    getProgress bigState (some 201) =
      { collected := 202, total := 201, percentage := JsNum.fin 100 }
    ∧ exceedsHundred (getProgress bigState (some 201)).percentage = false := by
  have hlen : bigState.collection.length = 202 := by
    have hc : bigState.collection = (List.range 202).map (fun n => Prim.pnum (Int.ofNat n)) := rfl
    rw [hc, List.length_map, List.length_range]
  have hfloor : (⌊((202 : ℚ) / 201) * 100 + 1 / 2⌋ : ℤ) = 100 := by
    rw [Int.floor_eq_iff]
    constructor <;> norm_num
  have hmain : getProgress bigState (some 201) =
      { collected := 202, total := 201, percentage := JsNum.fin 100 } := by
    simp only [getProgress, hlen, jsTimes100, jsMathRound]
    norm_num [hfloor]
  refine ⟨hmain, ?_⟩
  rw [hmain]
  norm_num [exceedsHundred]

/-- Claim C5 is refuted at a network failure on first load: the error is
raised inside the try block but caught, so `loadAnimals` returns normally
with an empty array instead of failing with a LoadError; the caller then
shows the degraded-state message without crashing. -/
theorem loadAnimals_swallows_error_counterexample :
    fetchTry FetchOutcome.networkError = Except.error LoadError.network
    ∧ loadAnimals FetchOutcome.networkError { animals := [], loaded := false } =
        { result := [], state := { animals := [], loaded := false }, fetched := true }
    ∧ appInit FetchOutcome.networkError = AppOutcome.showError couldNotLoadMsg := by
  exact ⟨rfl, rfl, rfl⟩

/-- Claim C5 (amended): when the source is unreachable or malformed on an
uncached call, `loadAnimals` catches the failure and returns an empty array
rather than propagating a LoadError, and application startup treats the
empty result as a degraded, non-fatal state by showing a message instead of
crashing. -/
theorem loadAnimals_degraded_nonfatal (f : FetchOutcome) (st : LoadState)
    (h1 : st.loaded = false) (h2 : fetchFails f = true) :
    loadAnimals f st = { result := [], state := st, fetched := true }
    ∧ appInit f = AppOutcome.showError couldNotLoadMsg := by
  cases hE : fetchTry f with
  | ok xs => simp [fetchFails, hE] at h2
  | error e =>
    constructor
    · simp [loadAnimals, h1, hE]
    · simp [appInit, loadAnimals, hE]

/-- Witness for the degraded-load theorem at a network failure from the
initial state. -/
theorem loadAnimals_degraded_nonfatal_witness :
    ({ animals := [], loaded := false } : LoadState).loaded = false
    ∧ fetchFails FetchOutcome.networkError = true
    ∧ (loadAnimals FetchOutcome.networkError { animals := [], loaded := false } =
          { result := [], state := { animals := [], loaded := false }, fetched := true }
      ∧ appInit FetchOutcome.networkError = AppOutcome.showError couldNotLoadMsg) := by
  exact ⟨rfl, rfl,
    loadAnimals_degraded_nonfatal FetchOutcome.networkError
      { animals := [], loaded := false } rfl rfl⟩

/-- Claim C6 is refuted by a failing first call: the first call fetches and
fails, nothing is cached, and a second call fetches again and returns a
different result from the first. -/
theorem loadAnimals_refetch_counterexample :
    (loadAnimals FetchOutcome.networkError { animals := [], loaded := false }).fetched = true
    ∧ (loadAnimals (FetchOutcome.ok [wombat])
          ((loadAnimals FetchOutcome.networkError { animals := [], loaded := false }).state)).fetched
        = true
    ∧ (loadAnimals (FetchOutcome.ok [wombat])
          ((loadAnimals FetchOutcome.networkError { animals := [], loaded := false }).state)).result
        ≠ (loadAnimals FetchOutcome.networkError { animals := [], loaded := false }).result := by
  exact ⟨rfl, rfl, by decide⟩

/-- Claim C6 (amended): only a successful fetch is cached.  After a
successful call the loaded flag is set and every subsequent call returns the
cached array without fetching; after a failed call the state is unchanged,
so the next call performs another fetch. -/
theorem loadAnimals_cache_after_success (f fb : FetchOutcome) (xs : List Animal)
    (st : LoadState) (h : st.loaded = false) (hf : fetchFails fb = true) :
    loadAnimals (FetchOutcome.ok xs) st =
      { result := xs, state := { animals := xs, loaded := true }, fetched := true }
    ∧ loadAnimals f { animals := xs, loaded := true } =
      { result := xs, state := { animals := xs, loaded := true }, fetched := false }
    ∧ (loadAnimals fb st).state = st
    ∧ (loadAnimals f ((loadAnimals fb st).state)).fetched = true := by
  cases hE : fetchTry fb with
  | ok ys => simp [fetchFails, hE] at hf
  | error e =>
    have hst : (loadAnimals fb st).state = st := by simp [loadAnimals, h, hE]
    refine ⟨by simp [loadAnimals, h, fetchTry], by simp [loadAnimals], hst, ?_⟩
    rw [hst]
    cases hF : fetchTry f <;> simp [loadAnimals, h, hF]

/-- Witness for the caching theorem: a failed first call followed by a
successful one. -/
theorem loadAnimals_cache_after_success_witness :
    ({ animals := [], loaded := false } : LoadState).loaded = false
    ∧ fetchFails FetchOutcome.networkError = true
    ∧ (loadAnimals (FetchOutcome.ok [wombat]) { animals := [], loaded := false } =
          { result := [wombat], state := { animals := [wombat], loaded := true }, fetched := true }
      ∧ loadAnimals (FetchOutcome.ok [wombat]) { animals := [wombat], loaded := true } =
          { result := [wombat], state := { animals := [wombat], loaded := true }, fetched := false }
      ∧ (loadAnimals FetchOutcome.networkError { animals := [], loaded := false }).state =
          { animals := [], loaded := false }
      ∧ (loadAnimals (FetchOutcome.ok [wombat])
            ((loadAnimals FetchOutcome.networkError { animals := [], loaded := false }).state)).fetched
          = true) := by
  exact ⟨rfl, rfl,
    loadAnimals_cache_after_success (FetchOutcome.ok [wombat]) FetchOutcome.networkError
      [wombat] { animals := [], loaded := false } rfl rfl⟩

theorem mem_classToggle_self (cls : List String) (c : String) : c ∈ classToggle cls c true := by
  by_cases hc : c ∈ cls <;> simp [classToggle, hc]

/-- Claim C7: the gallery entry of an animal that is not in the collected set
shows a silhouette placeholder and the redacted name text, carries no image
element at all (in particular none referencing the record image), has no
card-opening click handler, and keeps the undiscovered placeholder
styling. -/
theorem gallery_redaction (animal : Animal) (coll : List Prim)
    (h : Prim.pstr animal.id ∉ coll) :
    (createGalleryItem animal coll).children =
      [GNode.div ("collection-item__silhouette"),
       GNode.span ("collection-item__name") ("???")]
    ∧ (createGalleryItem animal coll).clickableCard = false
    ∧ ("collection-item--undiscovered") ∈ (createGalleryItem animal coll).classes := by
  have hd : decide (Prim.pstr animal.id ∈ coll) = false := decide_eq_false h
  refine ⟨?_, ?_, ?_⟩
  · simp [createGalleryItem, hd]
  · simp [createGalleryItem, hd]
  · simp [createGalleryItem, hd, mem_classToggle_self]

/-- Witness for the redaction theorem: the sample animal against the empty
collection. -/
theorem gallery_redaction_witness :
    Prim.pstr wombat.id ∉ ([] : List Prim)
    ∧ ((createGalleryItem wombat []).children =
        [GNode.div ("collection-item__silhouette"),
         GNode.span ("collection-item__name") ("???")]
      ∧ (createGalleryItem wombat []).clickableCard = false
      ∧ ("collection-item--undiscovered") ∈ (createGalleryItem wombat []).classes) := by
  exact ⟨by decide, gallery_redaction wombat [] (by decide)⟩

theorem joinParts_cons_append (xs : List String) : ∀ (x y : String),
    joinParts ((x :: xs) ++ [y]) = joinParts (x :: xs) ++ ". " ++ y := by
  induction xs with
  | nil => intro x y; rfl
  | cons z t ih =>
    intro x y
    have h1 : joinParts ((x :: z :: t) ++ [y]) = x ++ ". " ++ joinParts ((z :: t) ++ [y]) := rfl
    have h2 : joinParts (x :: z :: t) = x ++ ". " ++ joinParts (z :: t) := rfl
    rw [h1, ih z y, h2]
    simp [String.append_assoc]

theorem joinParts_append_singleton (xs : List String) (y : String) (h : xs ≠ []) :
    joinParts (xs ++ [y]) = joinParts xs ++ ". " ++ y := by
  cases xs with
  | nil => exact absurd rfl h
  | cons x t => exact joinParts_cons_append t x y

theorem joinParts_append_pair (xs : List String) (y z : String) (h : xs ≠ []) :
    joinParts (xs ++ [y, z]) = joinParts xs ++ ". " ++ y ++ ". " ++ z := by
  have h1 : xs ++ [y, z] = (xs ++ [y]) ++ [z] := by simp
  rw [h1, joinParts_append_singleton (xs ++ [y]) z (by simp),
    joinParts_append_singleton xs y h]

theorem buildSpeechText_unfold (animal : Animal) :
    buildSpeechText animal =
      joinParts (([animal.name, categoryFraming animal.category] ++ factsLines animal.facts)
        ++ (if hasPracticeFlag animal then
              [practiceLine1 animal.name, practiceLine2 (practiceTarget animal)]
            else [])) := by
  unfold buildSpeechText hasPracticeFlag practiceTarget factsLines
  cases hsp : animal.speechPractice with
  | none => cases hf : animal.facts <;> simp [hf]
  | some sp =>
    cases hgk : sp.hasGKSound <;> cases hf : animal.facts <;> simp [hf, hgk]

/-- Claim C8: the narration text builder is a pure function of the record
that assembles the name, a framing sentence chosen by the category, the facts
enumerated in order behind their introduction with prefixes Fact 1, Fact 2
and so on, and a trailing prompt naming the target sound exactly when the
pronunciation-practice flag applies, with no trailing prompt otherwise. -/
theorem buildSpeechText_eq_spec (animal : Animal) :
    buildSpeechText animal = narrationSpecText animal := by
  rw [buildSpeechText_unfold]
  unfold narrationSpecText narrationBody
  by_cases hgk : hasPracticeFlag animal = true
  · have hne : ([animal.name, categoryFraming animal.category] ++ factsLines animal.facts) ≠ [] := by
      simp
    rw [hgk]
    simp only [if_true]
    rw [joinParts_append_pair _ _ _ hne]
  · have hgk' : hasPracticeFlag animal = false := by
      simpa using hgk
    rw [hgk']
    simp
